import Mathlib

/-!
Shallow embedding of the C++11 thread pool (namespace CTP, files
thread_pool.h / thread_pool.cpp): the priority queue bank
(std::map<Priority, std::queue<Job>, std::greater<Priority>>), the
worker loop of ThreadPool::impl::Init, the enqueue path
ThreadPool::impl::AddJob, and ThreadPool::impl::Shutdown.

Jobs are identified by natural numbers; the bank is modelled as the
map's internal representation: an association list kept sorted in
strictly descending key order by the std::greater<Priority> comparator.
-/

namespace CTP

/-- enum class Priority : size_t { Normal, High, Critical } from thread_pool.h. -/
inductive Priority where
  | Normal
  | High
  | Critical
deriving DecidableEq, Repr

/-- The underlying size_t value of each enumerator (Normal = 0, High = 1, Critical = 2). -/
def Priority.val : Priority → Nat
  | .Normal => 0
  | .High => 1
  | .Critical => 2

/-- A job as stored in the queues: std::function<void()> instances are opaque to the
scheduling core, so they are identified by a natural number. -/
abbrev Job := Nat

/-- The queue bank m_jobsByPriority: a std::map with comparator std::greater<Priority>,
modelled as its internal representation, an association list of (key, queue) pairs kept
sorted in strictly descending order of Priority.val. -/
abbrev Bank := List (Priority × List Job)

/-- The three-entry bank in the map's iteration order (descending priority):
Critical first, then High, then Normal. -/
def bank3 (c h n : List Job) : Bank :=
  [(Priority.Critical, c), (Priority.High, h), (Priority.Normal, n)]

/-- map::operator[] followed by assignment of an empty queue, as in
m_jobsByPriority[p] = \x7b\x7d during Init: find the key in the descending-sorted
list (inserting it at its sorted position if absent) and set its queue to empty. -/
def mapSetEmpty : Bank → Priority → Bank
  | [], p => [(p, [])]
  | (q, jobs) :: rest, p =>
    if p.val > q.val then (p, []) :: (q, jobs) :: rest
    else if p = q then (q, []) :: rest
    else (q, jobs) :: mapSetEmpty rest p

/-- map::operator[] followed by queue::emplace, as in
m_jobsByPriority[priority].emplace(std::move(job)) in AddJob: find the key in the
descending-sorted list (inserting it with an empty queue if absent) and push the
job at the back of its queue. -/
def mapAppend : Bank → Priority → Job → Bank
  | [], p, j => [(p, [j])]
  | (q, jobs) :: rest, p, j =>
    if p.val > q.val then (p, [j]) :: (q, jobs) :: rest
    else if p = q then (q, jobs ++ [j]) :: rest
    else (q, jobs) :: mapAppend rest p j

/-- The queue bank exactly as Init leaves it: the three queues are created empty,
in source order Normal, then High, then Critical (the map keeps them sorted
descending). -/
def initBank : Bank :=
  mapSetEmpty (mapSetEmpty (mapSetEmpty [] Priority.Normal) Priority.High) Priority.Critical

/-- The allQueuesEmpty accumulation inside the wait-predicate lambda:
allQueuesEmpty &= kvp.second.empty() over every entry of the map, starting from true. -/
def allQueuesEmpty (bank : Bank) : Bool :=
  bank.foldl (fun acc kvp => acc && kvp.2.isEmpty) true

/-- The predicate lambda passed to m_cvSleepCtrl.wait: returns true immediately when
false == m_running, otherwise returns the negation of allQueuesEmpty. -/
def waitPredicate (running : Bool) (bank : Bank) : Bool :=
  if running = false then true
  else !(allQueuesEmpty bank)

/-- The dequeue scan of the worker loop: iterate the map entries in order (the map is
sorted descending by priority), skip an empty queue, and at the first non-empty queue
move its front job out and pop it, leaving the remaining entries untouched.
Returns the dequeued job (none when every queue was empty, so the local
std::function job stays empty) together with the bank after the scan. -/
def dequeueScan : Bank → Option Job × Bank
  | [] => (none, [])
  | (q, jobs) :: rest =>
    match jobs with
    | [] =>
      let r := dequeueScan rest
      (r.1, (q, []) :: r.2)
    | j :: js => (some j, (q, js) :: rest)

/-- Which notify call an operation performs on m_cvSleepCtrl. -/
inductive Signal where
  | NotifyOne
  | NotifyAll
deriving DecidableEq, Repr

/-- ThreadPool::impl::AddJob under the lock: append the job to the queue of its
priority via operator[] and emplace, then call notify_one (never notify_all). -/
def AddJob (bank : Bank) (j : Job) (p : Priority) : Bank × Signal :=
  (mapAppend bank p j, Signal.NotifyOne)

/-- The observable event sequence of one AddJob call: the unique_lock is taken at
function entry, the job is appended, notify_one is called, and the lock is released
only when the unique_lock is destroyed at function exit — after the notify. -/
inductive LockEvent where
  | lock
  | unlock
  | append (p : Priority) (j : Job)
  | notifyOne
  | notifyAll
deriving DecidableEq, Repr

/-- The event trace of ThreadPool::impl::AddJob: unique_lock construction (lock),
emplace into the priority's queue, notify_one, then unlock at scope exit. -/
def addJobTrace (p : Priority) (j : Job) : List LockEvent :=
  [LockEvent.lock, LockEvent.append p j, LockEvent.notifyOne, LockEvent.unlock]

/-- One std::thread handle of m_workers, reduced to the one observable Shutdown
reads: whether joinable() is still true. A freshly spawned thread is joinable;
join() makes it non-joinable. -/
structure WorkerHandle where
  joinable : Bool
deriving DecidableEq, Repr

/-- The shared state of ThreadPool::impl: the running flag m_running, the queue bank
m_jobsByPriority, and the worker vector m_workers. -/
structure PoolState where
  running : Bool
  bank : Bank
  workers : List WorkerHandle
deriving DecidableEq, Repr

/-- The for loop of Init that pushes one std::thread per index in 0..threadCount. -/
def spawnWorkers (threadCount : Nat) : List WorkerHandle :=
  (List.range threadCount).map (fun _ => WorkerHandle.mk true)

/-- The state ThreadPool::ThreadPool(threadCount) leaves behind: the constructor
forwards threadCount to Init unchanged (no coercion of 0), m_running was initialised
true at member definition, Init creates the three empty queues and spawns exactly
threadCount workers. -/
def poolInit (threadCount : Nat) : PoolState :=
  PoolState.mk true initBank (spawnWorkers threadCount)

/-- What one pass of the worker loop body does once the condition-variable wait has
returned: the scan result (the possibly dequeued job and the bank it leaves), and
whether the next while (m_running) check exits the loop. -/
structure IterResult where
  bank : Bank
  executed : Option Job
  loopExits : Bool
deriving DecidableEq, Repr

/-- One iteration of the worker lambda's body after the wait returns: perform the
dequeue scan under the lock, then (outside the lock) the job is invoked exactly when
it is non-empty, and the loop continues iff m_running is still true. -/
def workerIter (running : Bool) (bank : Bank) : IterResult :=
  let r := dequeueScan bank
  IterResult.mk r.2 r.1 (!running)

/-- The outcome of the guarded invocation at the bottom of the loop body. -/
inductive ExecEvent where
  | ran (j : Job)
  | skipped
deriving DecidableEq, Repr

/-- The guard if (job != nullptr) \x7b job(); \x7d: invoke the dequeued job when one was
moved out of a queue, otherwise do nothing (so an empty std::function is never
invoked). -/
def iterExec : Option Job → ExecEvent
  | some j => ExecEvent.ran j
  | none => ExecEvent.skipped

/-- The join loop of Shutdown: for each worker, join() it when joinable(), which
leaves it non-joinable; an already-joined worker is skipped. -/
def joinAll (ws : List WorkerHandle) : List WorkerHandle :=
  ws.map (fun w => if w.joinable then WorkerHandle.mk false else w)

/-- ThreadPool::impl::Shutdown: set m_running to false, call notify_all, then join
every still-joinable worker. Returns the resulting state and the notify it issued. -/
def Shutdown (s : PoolState) : PoolState × Signal :=
  (PoolState.mk false s.bank (joinAll s.workers), Signal.NotifyAll)

/-- The operations that touch the shared state during the lifetime of one pool. -/
inductive PoolOp where
  | addJob (j : Job) (p : Priority)
  | workerIteration
  | shutdown
deriving DecidableEq, Repr

/-- The effect of each operation on the shared state: AddJob rewrites only the bank,
a worker iteration rewrites only the bank (via its scan), Shutdown clears the flag
and joins the workers. None of them writes true into m_running. -/
def applyOp : PoolOp → PoolState → PoolState
  | PoolOp.addJob j p, s => PoolState.mk s.running (AddJob s.bank j p).1 s.workers
  | PoolOp.workerIteration, s => PoolState.mk s.running (workerIter s.running s.bank).bank s.workers
  | PoolOp.shutdown, s => (Shutdown s).1

/-- The key sequence of the bank, in iteration order. -/
def bankKeys (bank : Bank) : List Priority :=
  bank.map Prod.fst

/-- The result channel of one scheduled job: the shared state of the
std::future / std::packaged_task pair — empty until the task runs, then holding
either the callable's value or the error it raised. -/
abbrev ResultChannel := Option (Except String Nat)

/-- A job as the worker invokes it: a transformer of the result channel that may
itself raise (Except.error models an exception escaping the call job()). -/
abbrev WorkerJob := ResultChannel → Except String ResultChannel

/-- What becomes of a worker that invokes one job: it returns to the top of its
loop with the channel updated, or the invocation raised out of job() and the
thread dies (there is no try/catch around job() in the loop). -/
inductive ExecStatus where
  | returnedToLoop (ch : ResultChannel)
  | crashed (msg : String)
deriving Repr

/-- The worker's execution of one dequeued job: job(); an error escaping the
invocation crashes the thread, a normal return sends the worker back to its loop. -/
def workerExecute (job : WorkerJob) (ch : ResultChannel) : ExecStatus :=
  match job ch with
  | Except.ok ch2 => ExecStatus.returnedToLoop ch2
  | Except.error m => ExecStatus.crashed m

/-- The wrapper built by ThreadPool::Schedule: the callable is bound into a
std::packaged_task and the enqueued job is the lambda that invokes the task.
Invoking a packaged_task runs the stored callable and stores its value, or any
error the callable raises, into the shared state; the invocation itself returns
normally, so the enqueued job never raises into the worker loop. -/
def scheduleWrap (f : Unit → Except String Nat) : WorkerJob :=
  fun _ => Except.ok (some (f ()))

/-- The wait-predicate fold over the three-entry bank reduces to the conjunction of
the three emptiness tests. -/
theorem allQueuesEmpty_bank3 (c h n : List Job) :
    allQueuesEmpty (bank3 c h n) = (c.isEmpty && h.isEmpty && n.isEmpty) := by
  simp [allQueuesEmpty, bank3, Bool.and_assoc]

/-- Joining the worker vector twice is the same as joining it once: a joined thread
is no longer joinable, so the second pass skips every handle. -/
theorem joinAll_idem (ws : List WorkerHandle) : joinAll (joinAll ws) = joinAll ws := by
  induction ws with
  | nil => rfl
  | cons w rest ih =>
    cases w with
    | mk b =>
      cases b <;> simp [joinAll] at ih ⊢ <;> exact ih

/-- After the join loop no handle of the worker vector is joinable. -/
theorem joinAll_not_joinable (ws : List WorkerHandle) :
    ((joinAll ws).all fun w => !w.joinable) = true := by
  induction ws with
  | nil => rfl
  | cons w rest ih =>
    cases w with
    | mk b =>
      cases b <;> simp [joinAll] at ih ⊢ <;> exact ih

/-- C1: with at least one queue non-empty, the dequeue scan, performed under the single
lock, examines the queues in strict descending priority order — Critical, then High,
then Normal — and removes and returns the front element of the first non-empty queue,
leaving the other queues untouched; so within one priority level the front (oldest)
job leaves first (FIFO), and a queued Critical job is dequeued before any queued
Normal job; the scan always yields a job. -/
theorem c1_dequeue_scan_descending_fifo (c h n : List Job)
    (hne : allQueuesEmpty (bank3 c h n) = false) :
    (∀ j c', c = j :: c' → dequeueScan (bank3 c h n) = (some j, bank3 c' h n)) ∧
    (∀ j h', c = [] → h = j :: h' → dequeueScan (bank3 c h n) = (some j, bank3 [] h' n)) ∧
    (∀ j n', c = [] → h = [] → n = j :: n' →
      dequeueScan (bank3 c h n) = (some j, bank3 [] [] n')) ∧
    (dequeueScan (bank3 c h n)).1.isSome = true := by
  cases c <;> cases h <;> cases n <;>
    simp_all [dequeueScan, bank3, allQueuesEmpty]

/-- C1 witness: a bank with one Critical job and one Normal job queued; the scan
dequeues the Critical front. -/
theorem c1_witness :
    allQueuesEmpty (bank3 [5] [] [9]) = false ∧
    dequeueScan (bank3 [5] [] [9]) = (some 5, bank3 [] [] [9]) :=
  ⟨by decide, (c1_dequeue_scan_descending_fifo [5] [] [9] (by decide)).1 5 [] rfl⟩

/-- C2 counterexample: requesting zero threads spawns zero workers — the constructor
and Init perform no coercion of thread_count 0 to 1, refuting the claim that every
construction spawns at least one worker. -/
theorem c2_counterexample :
    (poolInit 0).workers.length = 0 ∧ ¬ 1 ≤ (poolInit 0).workers.length := by
  decide

/-- C2 amended: pool construction spawns exactly the requested number of worker
threads, with no coercion: a thread_count of 0 (including the case where the
platform-reported hardware parallelism is 0 and is used as the default) yields a pool
with zero workers; the pool starts with the running flag true and every spawned
worker joinable. -/
theorem c2_exact_worker_count (threadCount : Nat) :
    (poolInit threadCount).workers.length = threadCount ∧
    (poolInit threadCount).running = true ∧
    ((poolInit threadCount).workers.all fun w => w.joinable) = true := by
  refine ⟨?_, rfl, ?_⟩ <;> simp [poolInit, spawnWorkers, List.all_map]

/-- C3: evaluation at the failing input. With the running flag already false and one
Normal job still queued, a woken worker's wait predicate is true, its scan still
dequeues the job, the guarded invocation runs it, and only then does the loop exit —
contradicting the claim (and the Shutdown doc comment) that no new job is dequeued
once the flag is false and that the worker exits exactly when the scan finds no job. -/
theorem c3_post_shutdown_dequeue :
    waitPredicate false (bank3 [] [] [7]) = true ∧
    (workerIter false (bank3 [] [] [7])).executed = some 7 ∧
    iterExec (workerIter false (bank3 [] [] [7])).executed = ExecEvent.ran 7 ∧
    (workerIter false (bank3 [] [] [7])).loopExits = true := by
  decide

/-- C4: the wait predicate, evaluated under the lock, returns true iff the running
flag is false or at least one of the three queues is non-empty; equivalently it
returns false — the worker keeps waiting — exactly when the running flag is true and
all three queues are empty. -/
theorem c4_wait_predicate_iff (running : Bool) (c h n : List Job) :
    (waitPredicate running (bank3 c h n) = true ↔
      (running = false ∨ c ≠ [] ∨ h ≠ [] ∨ n ≠ [])) ∧
    (waitPredicate running (bank3 c h n) = false ↔
      (running = true ∧ c = [] ∧ h = [] ∧ n = [])) := by
  cases running <;> cases c <;> cases h <;> cases n <;>
    simp [waitPredicate, allQueuesEmpty, bank3]

/-- C5 counterexample: the claim's event order — release the lock, then signal — does
not match AddJob, whose notify_one is issued while the unique_lock is still held; the
lock is released only at function exit, after the signal. -/
theorem c5_counterexample :
    addJobTrace Priority.Normal 0 ≠
      [LockEvent.lock, LockEvent.append Priority.Normal 0, LockEvent.unlock,
       LockEvent.notifyOne] := by
  decide

/-- C5 amended: for every job and priority, the enqueue operation acquires the single
lock, appends the job to the back of the queue belonging to that priority (leaving
the other two queues unchanged), signals exactly one waiting worker (not all) while
still holding the lock, and releases the lock on return — the release follows the
signal rather than preceding it. -/
theorem c5_enqueue_appends_back_signals_one (c h n : List Job) (j : Job) :
    (AddJob (bank3 c h n) j Priority.Critical).1 = bank3 (c ++ [j]) h n ∧
    (AddJob (bank3 c h n) j Priority.High).1 = bank3 c (h ++ [j]) n ∧
    (AddJob (bank3 c h n) j Priority.Normal).1 = bank3 c h (n ++ [j]) ∧
    (∀ p, (AddJob (bank3 c h n) j p).2 = Signal.NotifyOne) ∧
    (∀ p, addJobTrace p j =
      [LockEvent.lock, LockEvent.append p j, LockEvent.notifyOne, LockEvent.unlock]) := by
  refine ⟨?_, ?_, ?_, fun p => rfl, fun p => rfl⟩ <;>
    simp [AddJob, mapAppend, bank3, Priority.val]

/-- C6: shutdown is idempotent — applying Shutdown to the state a first Shutdown
leaves behind returns that state unchanged (and the same notify), the running flag is
false after the first call, and every worker handle is already joined
(non-joinable). -/
theorem c6_shutdown_idempotent (s : PoolState) :
    (Shutdown (Shutdown s).1).1 = (Shutdown s).1 ∧
    (Shutdown (Shutdown s).1).2 = (Shutdown s).2 ∧
    (Shutdown s).1.running = false ∧
    ((Shutdown s).1.workers.all fun w => !w.joinable) = true := by
  refine ⟨?_, rfl, rfl, joinAll_not_joinable s.workers⟩
  simp [Shutdown, joinAll_idem]

/-- C7: the running flag is monotonic — it is true at pool construction, enqueue and
the worker loop leave it untouched, and the only write any operation performs is
Shutdown setting it to false; no operation ever writes true, so once false it stays
false. -/
theorem c7_running_flag_monotonic :
    (∀ threadCount, (poolInit threadCount).running = true) ∧
    (∀ s j p, (applyOp (PoolOp.addJob j p) s).running = s.running) ∧
    (∀ s, (applyOp PoolOp.workerIteration s).running = s.running) ∧
    (∀ s, (applyOp PoolOp.shutdown s).running = false) := by
  exact ⟨fun _ => rfl, fun _ _ _ => rfl, fun _ => rfl, fun _ => rfl⟩

/-- C8: the bank invariantly holds exactly one FIFO queue per priority level — Init
leaves the three queues present and empty, in descending key order; enqueue at any
priority and the worker's dequeue scan preserve the key sequence (no queue is added
or removed), and Shutdown does not touch the bank. -/
theorem c8_one_queue_per_priority :
    initBank = bank3 [] [] [] ∧
    bankKeys initBank = [Priority.Critical, Priority.High, Priority.Normal] ∧
    (∀ c h n j p, bankKeys (AddJob (bank3 c h n) j p).1 = bankKeys (bank3 c h n)) ∧
    (∀ c h n running,
      bankKeys (workerIter running (bank3 c h n)).bank = bankKeys (bank3 c h n)) ∧
    (∀ s, (Shutdown s).1.bank = s.bank) := by
  refine ⟨by decide, by decide, ?_, ?_, fun s => rfl⟩
  · intro c h n j p
    cases p <;> simp [AddJob, mapAppend, bank3, bankKeys, Priority.val]
  · intro c h n running
    cases c <;> cases h <;> cases n <;>
      simp [workerIter, dequeueScan, bank3, bankKeys]

/-- C9: a callable that raises is harmless to the worker — the packaged-task wrapper
built at submission time captures the error into the result channel, the enqueued
job's invocation returns normally, and the worker goes back to its loop exactly as
after a normal job (for every wrapped callable the execution ends in
returnedToLoop, never crashed). -/
theorem c9_error_captured_worker_survives (f : Unit → Except String Nat) (e : String)
    (hf : f () = Except.error e) :
    workerExecute (scheduleWrap f) none
      = ExecStatus.returnedToLoop (some (Except.error e)) ∧
    (∀ g : Unit → Except String Nat, ∀ ch,
      workerExecute (scheduleWrap g) ch = ExecStatus.returnedToLoop (some (g ()))) := by
  constructor
  · simp [workerExecute, scheduleWrap, hf]
  · intro g ch
    rfl

/-- C9 witness: a concrete callable that raises; its error reaches the channel and
the worker returns to its loop. -/
theorem c9_witness :
    workerExecute (scheduleWrap fun _ => Except.error "fail") none
      = ExecStatus.returnedToLoop (some (Except.error "fail")) :=
  (c9_error_captured_worker_survives (fun _ => Except.error "fail") "fail" rfl).1

/-- C10: in every iteration of the worker loop the dequeued job is invoked only when
the scan actually produced one — the guarded invocation is skipped exactly when all
queues were empty at the scan (the local std::function stayed empty), whatever job
is dequeued is the one invoked, and in particular a shutdown wakeup over an empty
bank executes nothing, so invoking an empty callable is unreachable. -/
theorem c10_empty_job_never_invoked (running : Bool) (c h n : List Job) :
    (iterExec (workerIter running (bank3 c h n)).executed = ExecEvent.skipped ↔
      allQueuesEmpty (bank3 c h n) = true) ∧
    (∀ j, (workerIter running (bank3 c h n)).executed = some j →
      iterExec (workerIter running (bank3 c h n)).executed = ExecEvent.ran j) ∧
    iterExec (workerIter false (bank3 [] [] [])).executed = ExecEvent.skipped := by
  refine ⟨?_, ?_, by decide⟩ <;>
    cases c <;> cases h <;> cases n <;>
      simp [workerIter, dequeueScan, bank3, iterExec, allQueuesEmpty]

end CTP
